import Mathlib

/-!
Shallow embedding of the MAX47x6 I2C DAC driver (MAX47x6-RK.cpp / MAX47x6-RK.h).

Bytes are modelled as `Nat` values reduced modulo 256 exactly where the C code
performs a `uint8_t` store or cast; 16-bit quantities modulo 65536; the 32-bit
millisecond clock modulo 2^32.  The packed bit-field `MAX47x6ConfigurationStatus`
is modelled field-by-field as the raw bit values of the status byte, allocated
from the least significant bit upward (the allocation of the little-endian ARM
target): ready is bit 0, por bit 1, filler bit 2, vref bits 3-4, powerdown
bits 5-6, gain bit 7.  Where the source reads such a field in an integer
comparison, the promotion of the (signed, plain-int) bit-field to int is
modelled by `sextField`.  Multi-byte struct members (`uint16_t` values inside
the packed status structs) follow the little-endian byte order of the target,
so the first wire byte of a value pair lands in the low byte.

The I2C bus and the clock are collaborators: a `BusEnv` supplies the success
flag of the (single) write transaction, the values returned by successive
`millis()` calls, and the bytes returned by successive status reads.  Write
transactions issued on the bus are recorded as `Tx` values (address plus the
bytes sent), so that theorems can count and inspect them.
-/

inductive Model where
  | MAX4706
  | MAX4716
  | MAX4726
  deriving DecidableEq

def CMD_WRITE_VOLATILE_MEMORY : Nat := 2

def CMD_WRITE_ALL_MEMORY : Nat := 3

def GAIN_2X : Nat := 1

def MAX_EEPROM_WAIT_MS : Nat := 100

structure MAX47x6ConfigurationStatus where
  ready : Nat
  por : Nat
  filler : Nat
  vref : Nat
  powerdown : Nat
  gain : Nat
  deriving DecidableEq

structure MAX47x6Status where
  volatileConfig : MAX47x6ConfigurationStatus
  volatileValue : Nat
  nonVolatileConfig : MAX47x6ConfigurationStatus
  nonVolatileValue : Nat
  deriving DecidableEq

structure MAX47x6Status8 where
  volatileConfig : MAX47x6ConfigurationStatus
  volatileValue : Nat
  nonVolatileConfig : MAX47x6ConfigurationStatus
  nonVolatileValue : Nat
  deriving DecidableEq

/-- Field view of one status byte: bit-fields allocated from the least
significant bit upward, as on the little-endian ARM target. -/
def decodeConfigByte (b : Nat) : MAX47x6ConfigurationStatus :=
  { ready := b % 2
    por := b / 2 % 2
    filler := b / 4 % 2
    vref := b / 8 % 4
    powerdown := b / 32 % 4
    gain := b / 128 % 2 }

/-- MAX47x6::convert - widen the 8-bit status record to the 16-bit one
(plain copies; the uint8 values are zero-extended by the uint16 assignment). -/
def convert (s8 : MAX47x6Status8) : MAX47x6Status :=
  { volatileConfig := s8.volatileConfig
    volatileValue := s8.volatileValue
    nonVolatileConfig := s8.nonVolatileConfig
    nonVolatileValue := s8.nonVolatileValue }

/-- The 4-byte raw status frame of the MAX4706 overlaid on the packed
MAX47x6Status8 struct.  `frame i` is the i-th byte returned by the device;
each byte passes through the `(uint8_t) wire.read()` cast, hence `% 256`. -/
def decodeFrame4 (frame : Nat → Nat) : MAX47x6Status8 :=
  { volatileConfig := decodeConfigByte (frame 0 % 256)
    volatileValue := frame 1 % 256
    nonVolatileConfig := decodeConfigByte (frame 2 % 256)
    nonVolatileValue := frame 3 % 256 }

/-- The 6-byte raw status frame of the MAX4716/MAX4726 overlaid on the packed
MAX47x6Status struct.  On the little-endian target the first byte of each
uint16_t member is its low byte. -/
def decodeFrame6 (frame : Nat → Nat) : MAX47x6Status :=
  { volatileConfig := decodeConfigByte (frame 0 % 256)
    volatileValue := frame 1 % 256 + 256 * (frame 2 % 256)
    nonVolatileConfig := decodeConfigByte (frame 3 % 256)
    nonVolatileValue := frame 4 % 256 + 256 * (frame 5 % 256) }

/-- MAX47x6::readStatus - the MAX4706 reads 4 bytes and converts; the other
models read 6 bytes directly into the result struct. -/
def readStatus (model : Model) (frame : Nat → Nat) : MAX47x6Status :=
  if model = Model.MAX4706 then
    convert (decodeFrame4 frame)
  else
    decodeFrame6 frame

/-- The driver object: the model tag and the resolved I2C address, both fixed
at construction. -/
structure Driver where
  model : Model
  addr : Nat
  deriving DecidableEq

/-- MAX47x6::MAX47x6 - the member addr is initialized from the constructor
argument in the mem-initializer list; inside the body the name addr denotes
the shadowing constructor parameter, so the `addr |= 0x60` performed for
arguments below 0x08 is a dead store to the parameter and the member keeps
the raw argument for every input. -/
def mkMAX47x6 (model : Model) (addr : Nat) : Driver :=
  { model := model
    addr := addr % 256 }

/-- One write transaction on the I2C bus: destination address and the bytes
sent inside beginTransmission/endTransmission. -/
structure Tx where
  addr : Nat
  bytes : List Nat
  deriving DecidableEq

/-- One read request on the I2C bus: destination address and requested count. -/
structure ReadReq where
  addr : Nat
  count : Nat
  deriving DecidableEq

/-- Environment supplied by the bus and clock collaborators: whether
endTransmission of the write reports success, the value of the k-th millis()
call, and the bytes of the k-th status read. -/
structure BusEnv where
  writeOk : Bool
  clock : Nat → Nat
  frames : Nat → Nat → Nat

/-- MAX47x6::writeDevice - sends the bytes to the stored address; the result
is the success of endTransmission (stat == 0), supplied by the environment. -/
def writeDevice (d : Driver) (bytes : List Nat) (env : BusEnv) : Bool × Tx :=
  (env.writeOk, { addr := d.addr, bytes := bytes })

/-- MAX47x6::readDevice - requests `count` bytes from the stored address. -/
def readDevice (d : Driver) (count : Nat) : ReadReq :=
  { addr := d.addr, count := count }

/-- The command frame built by MAX47x6::updateSettings.  Note the source's
byte-0 sequence: `buf[0] |= CMD << 5` is computed first, but the following
statement `buf[0] = vref << 3` is a plain assignment that discards it, so the
command bits never reach the frame; `buf[0] |= GAIN_2X` then sets bit 0 when
the gain argument is nonzero.  The buffer is always 3 bytes (sizeof buf). -/
def encodeSettings (model : Model) (vref gain value : Nat) (saveToEeprom : Bool) : List Nat :=
  let vref := vref % 256
  let gain := gain % 256
  let value := value % 65536
  let b0cmd := (if saveToEeprom then CMD_WRITE_ALL_MEMORY else CMD_WRITE_VOLATILE_MEMORY) <<< 5
  let b0v := (vref <<< 3) % 256
  let b0 := if gain != 0 then b0v ||| GAIN_2X else b0v
  match model with
  | Model.MAX4706 => [b0, value % 256, 0]
  | Model.MAX4716 => [b0, (value >>> 2) % 256, (value <<< 6) % 256]
  | Model.MAX4726 => [b0, (value >>> 4) % 256, (value <<< 4) % 256]

/-- millis() subtraction on 32-bit unsigned values: `a - b` computed modulo
2^32, the wraparound-tolerant elapsed-time expression of the source. -/
def wrapSub (a b : Nat) : Nat :=
  (a % 2 ^ 32 + (2 ^ 32 - b % 2 ^ 32)) % 2 ^ 32

/-- MAX47x6::isReady - the ready bit of the volatile config, used as a C bool
(nonzero means ready). -/
def isReadyFrame (model : Model) (frame : Nat → Nat) : Bool :=
  (readStatus model frame).volatileConfig.ready != 0

/-- The busy-wait loop of MAX47x6::updateSettings:
`while (millis() - start < MAX_EEPROM_WAIT_MS && !isReady()) {}`.
`k` counts loop iterations (the k-th iteration consumes millis() call k+1 and,
when the time guard holds, status read k).  `fuel` bounds the recursion; a
`none` result means the loop was not observed to exit within the fuel. -/
def eepromWait (model : Model) (env : BusEnv) (start : Nat) : Nat → Nat → Option Unit
  | 0, _ => none
  | fuel + 1, k =>
    if wrapSub (env.clock (k + 1)) start < MAX_EEPROM_WAIT_MS then
      if isReadyFrame model (env.frames k) then some ()
      else eepromWait model env start fuel (k + 1)
    else
      some ()

/-- MAX47x6::updateSettings - encode the frame, send it, and if the send
succeeded spin in the EEPROM wait loop (unconditionally, whether or not
saveToEeprom was set), then return true.  The first component is the returned
bool (`none` when the wait loop was not observed to exit within the fuel);
the second lists the write transactions issued on the bus. -/
def updateSettings (d : Driver) (vref gain value : Nat) (saveToEeprom : Bool)
    (env : BusEnv) (fuel : Nat) : Option Bool × List Tx :=
  let frame := encodeSettings d.model vref gain value saveToEeprom
  let wr := writeDevice d frame env
  if !wr.1 then
    (some false, [wr.2])
  else
    match eepromWait d.model env (env.clock 0 % 2 ^ 32) fuel 0 with
    | none => (none, [wr.2])
    | some _ => (some true, [wr.2])

/-- Value of a stored w-bit field when it is read in an expression: the
status struct declares its bit-fields as plain int, which is signed on the
GCC/ARM target, so a field whose top bit is set is promoted to a negative
int. -/
def sextField (w b : Nat) : Int :=
  if b < 2 ^ (w - 1) then (b : Int) else (b : Int) - 2 ^ w

/-- MAX47x6::updateEepromIfChanged - read the status (read transaction 0),
compare the stored non-volatile vref, gain and value with the requested ones,
and delegate to updateSettings with saveToEeprom = true when any comparison
reports a difference (its status reads are the subsequent ones, hence the
frame re-indexing); otherwise return true with no write issued.  The
comparisons promote the signed bit-fields vref:2 and gain:1 with sign
extension and the uint8 request with zero extension, so a stored field with
its top bit set (vref 0b10 or 0b11, gain 1) reads negative and never compares
equal to the request.  The uint16 value comparison is unsigned on both
sides. -/
def updateEepromIfChanged (d : Driver) (vref gain value : Nat)
    (env : BusEnv) (fuel : Nat) : Option Bool × List Tx :=
  let vref := vref % 256
  let gain := gain % 256
  let value := value % 65536
  let status := readStatus d.model (env.frames 0)
  if sextField 2 status.nonVolatileConfig.vref != (vref : Int) ||
      sextField 1 status.nonVolatileConfig.gain != (gain : Int) ||
      status.nonVolatileValue != value then
    updateSettings d vref gain value true
      { env with frames := fun k => env.frames (k + 1) } fuel
  else
    (some true, [])

/-- MAX47x6::updateValue - the body is `return true;`: no bus traffic, no
state change. -/
def updateValue (d : Driver) (value : Nat) : Bool × Driver × List Tx :=
  (true, d, [])

/-- DAC resolution of each model: MAX4706 8 bits, MAX4716 10, MAX4726 12. -/
def bitWidth : Model → Nat
  | Model.MAX4706 => 8
  | Model.MAX4716 => 10
  | Model.MAX4726 => 12

/-- Helper: updateSettings always issues exactly one write transaction, to the
driver's address, carrying the encoded frame - whether or not the transaction
is acknowledged and whether or not the wait loop is seen to exit. -/
theorem updateSettings_txList (d : Driver) (vref gain value : Nat) (saveToEeprom : Bool)
    (env : BusEnv) (fuel : Nat) :
    (updateSettings d vref gain value saveToEeprom env fuel).2 =
      [{ addr := d.addr, bytes := encodeSettings d.model vref gain value saveToEeprom }] := by
  unfold updateSettings writeDevice
  cases env.writeOk with
  | false => rfl
  | true =>
    simp only [Bool.not_true, Bool.false_eq_true, if_false]
    cases eepromWait d.model env (env.clock 0 % 2 ^ 32) fuel 0 <;> rfl

/-- C1: the spec expects the 10-bit frame for value 512, persist=false,
reference 0, gain 0, to be [0b01000000, 0b10000000, 0b00000000]; the code
computes the command bits but `buf[0] = vref << 3` (a plain assignment, not
an or-assignment) throws them away, so the frame actually sent is
[0b00000000, 0b10000000, 0b00000000]. -/
theorem C1_code_drops_command_selector :
    encodeSettings Model.MAX4716 0 0 512 false = [0, 128, 0] ∧ (0 : Nat) ≠ 64 := by
  decide

/-- C2 counterexample: take the 10-bit model, referenceSelector 0, gain 1,
value 0, persist=false.  The claim's byte-0 layout (command selector 0b010 in
bits 7-5, reference in bits 4-3, gain in bit 2) gives
0b010 <<< 5 ||| 0 <<< 3 ||| 1 <<< 2 = 68, but the code emits byte 0 = 1:
the command bits are overwritten and the gain flag lands in bit 0. -/
theorem C2_counterexample :
    (encodeSettings Model.MAX4716 0 1 0 false).headD 0 ≠
      CMD_WRITE_VOLATILE_MEMORY <<< 5 ||| 0 <<< 3 ||| 1 <<< 2 := by
  decide

/-- C2 amended: for every model, value and persist flag, and every in-range
(2-bit) referenceSelector, byte 0 of the encoded frame is
referenceSelector * 8 + gain-flag: the reference selector sits in bits 4-3,
any nonzero (uint8) gain argument sets bit 0, and the command selector -
although computed - is overwritten by the reference assignment, so bits 7-5
are zero and do not distinguish persist=false from persist=true. -/
theorem C2_byte0_layout (model : Model) (vref gain value : Nat) (saveToEeprom : Bool)
    (h : vref < 4) :
    (encodeSettings model vref gain value saveToEeprom).headD 0 =
      8 * vref + (if gain % 256 = 0 then 0 else 1) := by
  have hv : vref % 256 = vref := Nat.mod_eq_of_lt (by omega)
  cases model <;> by_cases hg : gain % 256 = 0 <;>
    simp only [encodeSettings, hv, hg, bne_self_eq_false, if_false, if_true, List.headD,
      bne_iff_ne, ne_eq, not_false_eq_true, if_pos, GAIN_2X, Nat.shiftLeft_eq] <;>
    interval_cases vref <;> decide

/-- C2 witness: at model MAX4726, referenceSelector 3, gain 2, value 7,
persist=true, byte 0 is 8 * 3 + 1 = 25. -/
theorem C2_byte0_layout_witness :
    (3 : Nat) < 4 ∧
      (encodeSettings Model.MAX4726 3 2 7 true).headD 0 =
        8 * 3 + (if (2 : Nat) % 256 = 0 then 0 else 1) :=
  ⟨by decide, C2_byte0_layout Model.MAX4726 3 2 7 true (by decide)⟩

/-- C5 counterexample: decode the 6-byte frame [0, 1, 0, 0, 0, 0] on the
10-bit model.  Under the claimed big-endian-per-field order the volatile value
would be 256 (first byte of the pair as high byte); the code overlays the
bytes on the packed little-endian struct and yields 1. -/
theorem C5_counterexample :
    (readStatus Model.MAX4716 (fun i => if i = 1 then 1 else 0)).volatileValue ≠ 256 := by
  decide

/-- C5 amended: for the 10-bit and 12-bit models, decoding a 6-byte status
frame maps the bytes in order to config, 16-bit value, config, 16-bit value -
volatile fields first, then non-volatile - but each 16-bit value is assembled
little-endian: the first byte of the pair is the LOW byte and the second byte
the high byte (the raw bytes are overlaid on the packed struct of the
little-endian target). -/
theorem C5_little_endian_decode (model : Model) (frame : Nat → Nat)
    (h : model ≠ Model.MAX4706) :
    (readStatus model frame).volatileConfig = decodeConfigByte (frame 0 % 256) ∧
    (readStatus model frame).volatileValue = frame 1 % 256 + 256 * (frame 2 % 256) ∧
    (readStatus model frame).nonVolatileConfig = decodeConfigByte (frame 3 % 256) ∧
    (readStatus model frame).nonVolatileValue = frame 4 % 256 + 256 * (frame 5 % 256) := by
  cases model with
  | MAX4706 => exact absurd rfl h
  | MAX4716 => exact ⟨rfl, rfl, rfl, rfl⟩
  | MAX4726 => exact ⟨rfl, rfl, rfl, rfl⟩

/-- C5 witness: the 12-bit model on the frame 10, 11, 12, 13, 14, 15 decodes
with low byte first in each value pair. -/
theorem C5_little_endian_decode_witness :
    (readStatus Model.MAX4726 (fun i => i + 10)).volatileConfig = decodeConfigByte 10 ∧
    (readStatus Model.MAX4726 (fun i => i + 10)).volatileValue = 11 + 256 * 12 ∧
    (readStatus Model.MAX4726 (fun i => i + 10)).nonVolatileConfig = decodeConfigByte 13 ∧
    (readStatus Model.MAX4726 (fun i => i + 10)).nonVolatileValue = 14 + 256 * 15 :=
  C5_little_endian_decode Model.MAX4726 (fun i => i + 10) (by decide)

/-- C6 counterexample: decoding the 4-byte frame
[0b00000001, 0x2A, 0b00000011, 0x15] on the 8-bit model does not give
nonVolatileConfig.vref = 1: the vref field is bits 3-4 of the status byte,
which are clear in 0b00000011, so vref decodes to 0 (bit 1 is the por flag). -/
theorem C6_counterexample :
    (readStatus Model.MAX4706 (fun i => [1, 42, 3, 21].getD i 0)).nonVolatileConfig.vref ≠ 1 := by
  decide

/-- C6 amended: the 4-byte frame [0b00000001, 0x2A, 0b00000011, 0x15] decodes
on the 8-bit model to volatileConfig.ready = 1, volatileValue = 0x2A,
nonVolatileConfig.ready = 1, nonVolatileConfig.por = 1 (bit 1 of 0b00000011
is the por flag, not part of vref), nonVolatileConfig.vref = 0, and
nonVolatileValue = 0x15, with the one-byte values zero-extended, not scaled. -/
theorem C6_decode_example :
    (readStatus Model.MAX4706 (fun i => [1, 42, 3, 21].getD i 0)).volatileConfig.ready = 1 ∧
    (readStatus Model.MAX4706 (fun i => [1, 42, 3, 21].getD i 0)).volatileValue = 42 ∧
    (readStatus Model.MAX4706 (fun i => [1, 42, 3, 21].getD i 0)).nonVolatileConfig.ready = 1 ∧
    (readStatus Model.MAX4706 (fun i => [1, 42, 3, 21].getD i 0)).nonVolatileConfig.por = 1 ∧
    (readStatus Model.MAX4706 (fun i => [1, 42, 3, 21].getD i 0)).nonVolatileConfig.vref = 0 ∧
    (readStatus Model.MAX4706 (fun i => [1, 42, 3, 21].getD i 0)).nonVolatileValue = 21 := by
  decide

/-- C7: for every model of width w, every in-range k, and every reference,
gain and persist flag, encoding outputValue = 2^w + k produces a frame
identical byte for byte to encoding outputValue = k: out-of-range values are
truncated by the casts, never rejected. -/
theorem C7_truncation (model : Model) (vref gain : Nat) (saveToEeprom : Bool) (k : Nat)
    (h : k < 2 ^ bitWidth model) :
    encodeSettings model vref gain (2 ^ bitWidth model + k) saveToEeprom =
      encodeSettings model vref gain k saveToEeprom := by
  cases model <;>
    simp only [encodeSettings, bitWidth, Nat.shiftLeft_eq, Nat.shiftRight_eq_div_pow,
      List.cons.injEq, and_true, true_and] at h ⊢ <;>
    norm_num at h ⊢ <;>
    exact ⟨by omega, by omega⟩

/-- C7 witness: on the 10-bit model with k = 5, the frames for 1029 and 5
coincide. -/
theorem C7_truncation_witness :
    (5 : Nat) < 2 ^ bitWidth Model.MAX4716 ∧
      encodeSettings Model.MAX4716 1 1 (2 ^ bitWidth Model.MAX4716 + 5) false =
        encodeSettings Model.MAX4716 1 1 5 false :=
  ⟨by decide, C7_truncation Model.MAX4716 1 1 false 5 (by decide)⟩

/-- C3: the claim (and the function's own doc, an EEPROM write only if the
values change) says that when the device's stored non-volatile vref, gain and
value all equal the requested ones, zero write transactions are issued.  Take
the 10-bit model with non-volatile config byte 0b10000000 - gain bit 1, vref
bits 00 - and non-volatile value 0, and request vref = 0, gain = GAIN_2X = 1,
value = 0: the stored field values equal the request, yet the signed
comparison of the gain:1 bit-field (which reads -1) against the zero-extended
request (1) reports a difference, and a persisting write is issued on every
such call. -/
theorem C3_matching_fields_still_write :
    (readStatus Model.MAX4716 (fun i => if i = 3 then 128 else 0)).nonVolatileConfig.vref = 0 ∧
    (readStatus Model.MAX4716 (fun i => if i = 3 then 128 else 0)).nonVolatileConfig.gain = GAIN_2X ∧
    (readStatus Model.MAX4716 (fun i => if i = 3 then 128 else 0)).nonVolatileValue = 0 ∧
    updateEepromIfChanged (mkMAX47x6 Model.MAX4716 0x60) 0 GAIN_2X 0
        (BusEnv.mk true (fun k => 50 * k) (fun _ i => if i = 3 then 128 else 0)) 5 =
      (some true,
       [{ addr := 0x60, bytes := encodeSettings Model.MAX4716 0 GAIN_2X 0 true }]) := by
  decide

/-- C4: whenever updateSettings is observed to return (the wait loop exits
within the fuel), the returned bool is false exactly when the initial write
transaction failed: readiness-poll timeout is never reported as failure. -/
theorem C4_failure_iff_write_failed (d : Driver) (vref gain value : Nat) (saveToEeprom : Bool)
    (env : BusEnv) (fuel : Nat) (r : Bool)
    (h : (updateSettings d vref gain value saveToEeprom env fuel).1 = some r) :
    (r = false ↔ env.writeOk = false) := by
  unfold updateSettings writeDevice at h
  cases hw : env.writeOk with
  | false =>
    rw [hw] at h
    simp only [Bool.not_false, if_true] at h
    · constructor <;> intro _ <;> first
      | rfl
      | exact (Option.some_inj.mp h).symm
  | true =>
    rw [hw] at h
    simp only [Bool.not_true, Bool.false_eq_true, if_false] at h
    cases hwait : eepromWait d.model env (env.clock 0 % 2 ^ 32) fuel 0 with
    | none => rw [hwait] at h; cases h
    | some u =>
      rw [hwait] at h
      have hr : r = true := (Option.some_inj.mp h).symm
      subst hr
      simp

/-- C4 witness: a persisting write whose readiness polls never observe the
ready bit (all status bytes zero) and whose clock passes 100 ms still returns
true when the initial write transaction was acknowledged. -/
theorem C4_failure_iff_write_failed_witness :
    (updateSettings (mkMAX47x6 Model.MAX4726 1) 0 0 4095 true
        (BusEnv.mk true (fun k => 60 * k) (fun _ _ => 0)) 3).1 = some true ∧
    (true = false ↔ (BusEnv.mk true (fun k => 60 * k) (fun _ _ => 0)).writeOk = false) :=
  ⟨by decide,
   C4_failure_iff_write_failed (mkMAX47x6 Model.MAX4726 1) 0 0 4095 true
     (BusEnv.mk true (fun k => 60 * k) (fun _ _ => 0)) 3 true (by decide)⟩

/-- Helper: the wrapped 32-bit difference recovers the true elapsed time
whenever the elapsed time is below 2^32, regardless of where the clock value
wrapped. -/
theorem wrapSub_elapsed (s e a : Nat) (h : e < 2 ^ 32)
    (ha : a % 2 ^ 32 = (s + e) % 2 ^ 32) : wrapSub a s = e := by
  unfold wrapSub
  rw [ha]
  norm_num at h ⊢
  omega

/-- C8: the readiness-poll timeout comparison is an unsigned 32-bit
difference of millisecond timestamps: if the clock value read in loop
iteration k is (start + e) modulo 2^32 for a true elapsed time e with
100 <= e < 2^32, the computed difference equals e, the guard fails, and the
wait loop exits on that iteration whatever the poll results - even when the
clock wrapped around between start and the poll. -/
theorem C8_wraparound_timeout (model : Model) (env : BusEnv) (s e k fuel : Nat)
    (h1 : MAX_EEPROM_WAIT_MS ≤ e) (h2 : e < 2 ^ 32)
    (hc : env.clock (k + 1) % 2 ^ 32 = (s + e) % 2 ^ 32) :
    wrapSub (env.clock (k + 1)) s = e ∧
    eepromWait model env s (fuel + 1) k = some () := by
  have hws : wrapSub (env.clock (k + 1)) s = e := wrapSub_elapsed s e _ h2 hc
  have hguard : ¬ (wrapSub (env.clock (k + 1)) s < MAX_EEPROM_WAIT_MS) := by
    rw [hws]
    unfold MAX_EEPROM_WAIT_MS at h1 ⊢
    omega
  refine ⟨hws, ?_⟩
  unfold eepromWait
  rw [if_neg hguard]

/-- C8 witness: start timestamp 2^32 - 50, elapsed 120 ms, so the clock has
wrapped to 70; the computed difference is 120 and the loop exits at once. -/
theorem C8_wraparound_timeout_witness :
    MAX_EEPROM_WAIT_MS ≤ 120 ∧ (120 : Nat) < 2 ^ 32 ∧
    (BusEnv.mk true (fun _ => 70) (fun _ _ => 0)).clock 1 % 2 ^ 32 =
      (2 ^ 32 - 50 + 120) % 2 ^ 32 ∧
    (wrapSub ((BusEnv.mk true (fun _ => 70) (fun _ _ => 0)).clock 1) (2 ^ 32 - 50) = 120 ∧
     eepromWait Model.MAX4706 (BusEnv.mk true (fun _ => 70) (fun _ _ => 0))
       (2 ^ 32 - 50) 1 0 = some ()) :=
  ⟨by decide, by decide, by decide,
   C8_wraparound_timeout Model.MAX4706 (BusEnv.mk true (fun _ => 70) (fun _ _ => 0))
     (2 ^ 32 - 50) 120 0 0 (by decide) (by decide) (by decide)⟩

/-- C9: the claim (and the constructor's own comment and the header doc,
which promise 0x60 - 0x67 for arguments 0 - 7) says bus transactions for a
constructor argument below 0x08 use 0x60 or-ed with the argument.  In the
source the member addr is initialized from the argument in the
mem-initializer list, and the body's `addr |= 0x60` assigns to the shadowing
constructor parameter - a dead store - so both bus primitives address the raw
argument: for argument 3 the transactions go to address 3, not 0x63. -/
theorem C9_raw_address_used :
    (writeDevice (mkMAX47x6 Model.MAX4706 3) [1, 2]
        (BusEnv.mk true (fun _ => 0) (fun _ _ => 0))).2.addr = 3 ∧
    (readDevice (mkMAX47x6 Model.MAX4706 3) 4).addr = 3 ∧
    (3 : Nat) ≠ 0x60 ||| 3 := by
  decide

/-- C10: updateValue performs no bus transaction, leaves the driver state
unchanged, and returns true, for every value argument. -/
theorem C10_updateValue_noop (d : Driver) (value : Nat) :
    updateValue d value = (true, d, []) := rfl
